import Mathlib

/-!
Verification development for the CGAN tabular-data synthesizer
(src/models/cgan/model.py).

The Python source is shallowly embedded below:
  * the batch sampler CGAN.get_data_batch becomes gdbIndices, a pure
    function on the dataset's index list; numpy's global random state is
    modelled explicitly, and np.random.choice (with replace=False and
    size=len) is an oracle parameter, deterministic in the seed that
    np.random.seed installs;
  * the generator network Generator.build_model becomes generatorForward,
    an exact-arithmetic (integer) forward pass keeping the layer wiring of
    the source, embedding table included;
  * CGAN.__init__'s ordering of trainable-flag mutation and model
    compilation becomes an explicit operation list, and Keras's
    compile-time capture of the trainable-weight set becomes snapshot
    fields, so that the frozen-discriminator frame property of the
    training step is statable;
  * CGAN.train's batch splitting, checkpoint naming and sampler invocation,
    and CGAN.save / CGAN.load's directory checks, are embedded directly.
-/

set_option linter.unusedVariables false

namespace CGANModel

/-! ### Batch sampler: CGAN.get_data_batch (model.py lines 46-59)

Source:
    start_i = (batch_size * seed) % len(train)
    stop_i = start_i + batch_size
    shuffle_seed = (batch_size * seed) // len(train)
    np.random.seed(shuffle_seed)
    train_ix = np.random.choice(list(train.index), replace=False, size=len(train))
    train_ix = list(train_ix) + list(train_ix)
    x = train.loc[train_ix[start_i: stop_i]].values

The dataset is represented by its index list `trainIndex`. The shuffle
`np.random.choice(l, replace=False, size=len(l))` is a deterministic
function of the numpy global state, which `np.random.seed(shuffle_seed)`
has just overwritten; it is modelled by the oracle `choice : seed -> list
-> shuffled list`. The ambient numpy state before the call is `rng`; the
source overwrites it, so the result cannot depend on it. -/

/-- The shuffle seed computed by get_data_batch: (batch_size * seed) // len(train). -/
def shuffleSeed (batch_size seed numRows : ℕ) : ℕ :=
  batch_size * seed / numRows

/-- Row indices selected by CGAN.get_data_batch: slice [start_i : stop_i] of
the self-concatenated shuffled index list. `rng` is the ambient numpy global
state; the source overwrites it with np.random.seed(shuffle_seed) before
sampling, which is why `rng` is never consulted. -/
def gdbIndices (choice : ℕ → List ℕ → List ℕ) (rng : ℕ)
    (trainIndex : List ℕ) (batch_size seed : ℕ) : List ℕ :=
  let start_i := batch_size * seed % trainIndex.length
  let stop_i := start_i + batch_size
  let shuffle_seed := shuffleSeed batch_size seed trainIndex.length
  let train_ix := choice shuffle_seed trainIndex
  let train_ix2 := train_ix ++ train_ix
  (train_ix2.drop start_i).take (stop_i - start_i)

/-! ### Training-loop invocation of the sampler (model.py line 72)

Source: `batch_y = self.get_data_batch(data, self.batch_size)` — the step
counter `epoch` is NOT passed, so the `seed` parameter takes its default
value 0 at every step. -/

/-- The indices sampled by the training loop at step `epoch`: the source
omits the seed argument, so get_data_batch runs with seed = 0 regardless of
`epoch`. -/
def trainEpochBatchIndices (choice : ℕ → List ℕ → List ℕ) (rng : ℕ)
    (trainIndex : List ℕ) (batch_size : ℕ) (epoch : ℕ) : List ℕ :=
  gdbIndices choice rng trainIndex batch_size 0

/-- All indices sampled by the training loop over steps 0..nsteps-1. -/
def trainSampledIndices (choice : ℕ → List ℕ → List ℕ) (rng : ℕ)
    (trainIndex : List ℕ) (batch_size nsteps : ℕ) : List ℕ :=
  (List.range nsteps).flatMap
    (fun epoch => trainEpochBatchIndices choice rng trainIndex batch_size epoch)

/-- The training loop's sampler call ignores the step counter: every epoch
receives the batch of seed 0. -/
theorem trainEpochBatchIndices_const (choice : ℕ → List ℕ → List ℕ) (rng : ℕ)
    (trainIndex : List ℕ) (batch_size e e' : ℕ) :
    trainEpochBatchIndices choice rng trainIndex batch_size e =
      trainEpochBatchIndices choice rng trainIndex batch_size e' := rfl

/-- C5: the batch sampler is deterministic — it reseeds numpy's global
state from the step-derived shuffle seed before sampling, so two
invocations with the same dataset, batch size and step return identical
batches (same rows, same order) whatever the ambient random states were. -/
theorem gdb_deterministic (choice : ℕ → List ℕ → List ℕ) (rng₁ rng₂ : ℕ)
    (trainIndex : List ℕ) (batch_size seed : ℕ) :
    gdbIndices choice rng₁ trainIndex batch_size seed =
      gdbIndices choice rng₂ trainIndex batch_size seed := rfl

/-- C6: get_data_batch selects exactly the window
[start : start + batch_size] of the self-concatenated shuffled index list,
where start = (batch_size * step) mod numRows and the shuffle is a function
of shuffleSeed = (batch_size * step) / numRows alone; and (for
batch_size ≤ numRows) that seed is nondecreasing in the step and grows by
at most one per step — it changes only once per full pass over the data,
not at every step. -/
theorem gdb_window_and_seed (choice : ℕ → List ℕ → List ℕ) (rng : ℕ)
    (trainIndex : List ℕ) (batch_size seed : ℕ) :
    gdbIndices choice rng trainIndex batch_size seed =
      ((choice (shuffleSeed batch_size seed trainIndex.length) trainIndex ++
        choice (shuffleSeed batch_size seed trainIndex.length) trainIndex).drop
          (batch_size * seed % trainIndex.length)).take batch_size
    ∧ (batch_size ≤ trainIndex.length →
        shuffleSeed batch_size seed trainIndex.length ≤
          shuffleSeed batch_size (seed + 1) trainIndex.length ∧
        shuffleSeed batch_size (seed + 1) trainIndex.length ≤
          shuffleSeed batch_size seed trainIndex.length + 1) := by
  constructor
  · simp [gdbIndices]
  · intro hB
    rcases Nat.eq_zero_or_pos trainIndex.length with h0 | hpos
    · have hB0 : batch_size = 0 := by omega
      simp [shuffleSeed, hB0]
    · constructor
      · exact Nat.div_le_div_right (Nat.mul_le_mul_left _ (Nat.le_succ _))
      · have h1 : batch_size * (seed + 1) ≤ batch_size * seed + trainIndex.length := by
          have hms : batch_size * (seed + 1) = batch_size * seed + batch_size := by ring
          omega
        calc shuffleSeed batch_size (seed + 1) trainIndex.length
            ≤ (batch_size * seed + trainIndex.length) / trainIndex.length :=
              Nat.div_le_div_right h1
          _ = batch_size * seed / trainIndex.length + 1 :=
              Nat.add_div_right _ hpos
          _ = shuffleSeed batch_size seed trainIndex.length + 1 := rfl

/-- Witness for gdb_window_and_seed at a concrete instance. -/
theorem gdb_window_and_seed_witness :
    gdbIndices (fun _ l => l) 0 [0, 1, 2] 2 1 =
      (((fun (_ : ℕ) (l : List ℕ) => l) (shuffleSeed 2 1 3) [0, 1, 2] ++
        (fun (_ : ℕ) (l : List ℕ) => l) (shuffleSeed 2 1 3) [0, 1, 2]).drop
          (2 * 1 % 3)).take 2
    ∧ (shuffleSeed 2 1 3 ≤ shuffleSeed 2 2 3 ∧ shuffleSeed 2 2 3 ≤ shuffleSeed 2 1 3 + 1) :=
  ⟨(gdb_window_and_seed (fun _ l => l) 0 [0, 1, 2] 2 1).1,
   (gdb_window_and_seed (fun _ l => l) 0 [0, 1, 2] 2 1).2 (by decide)⟩

/-- C1: the coverage property fails for the sampler as invoked by the
training loop. With the identity shuffle oracle (a legitimate permutation
of the index list), a dataset of N = 2 rows indexed [0, 1] and
batch_size B = 1, the training loop runs get_data_batch with seed = 0 at
every step (the source omits the step argument), so over B·N = 2 steps the
union of the sampled batches never contains row index 1, although 1 is an
index of the dataset. -/
theorem trainLoop_coverage_fails :
    ((fun (_ : ℕ) (l : List ℕ) => l) 0 [0, 1]).Perm [0, 1]
    ∧ (1 : ℕ) ∈ ([0, 1] : List ℕ)
    ∧ (1 : ℕ) ∉ trainSampledIndices (fun _ l => l) 0 [0, 1] 1 2 := by
  refine ⟨List.Perm.refl _, by decide, by decide⟩

/-! ### C3: batch length.

The claim states that B ≤ 2N makes the slice have length exactly B for
every step. That fails: with N = 3 and B = 5 ≤ 2N, at step 1 the window
starts at (5·1) mod 3 = 2 and [2 : 7] of the 6-element doubled list has
only 4 elements. The tight precondition is B ≤ N + gcd(B, N): the window
start (B·s) mod N is always a multiple of gcd(B, N), hence at most
N - gcd(B, N), so the window fits in the doubled list exactly when
B ≤ N + gcd(B, N). -/

/-- C3 counterexample: N = 3, B = 5 ≤ 2N = 6, step 1 — the slice produced
by get_data_batch has length 4, not 5 (here with the identity shuffle
oracle, a legitimate permutation; the length of the slice does not depend
on which permutation numpy returns). -/
theorem gdb_batch_length_counterexample :
    ((fun (_ : ℕ) (l : List ℕ) => l) (shuffleSeed 5 1 3) [0, 1, 2]).Perm [0, 1, 2]
    ∧ 5 ≤ 2 * 3
    ∧ (gdbIndices (fun _ l => l) 0 [0, 1, 2] 5 1).length = 4 := by
  refine ⟨List.Perm.refl _, by decide, by decide⟩

/-- C3 amended: if the dataset is nonempty, the shuffle oracle returns a
list of the dataset's length (as numpy's replace=False, size=len choice
does), and batch_size ≤ numRows + gcd(batch_size, numRows), then
get_data_batch's slice has length exactly batch_size at every step. -/
theorem gdb_batch_length (choice : ℕ → List ℕ → List ℕ) (rng : ℕ)
    (trainIndex : List ℕ) (batch_size seed : ℕ)
    (hN : 0 < trainIndex.length)
    (hlen : ∀ sd, (choice sd trainIndex).length = trainIndex.length)
    (hB : batch_size ≤ trainIndex.length + Nat.gcd batch_size trainIndex.length) :
    (gdbIndices choice rng trainIndex batch_size seed).length = batch_size := by
  set N := trainIndex.length with hNdef
  set g := Nat.gcd batch_size N with hgdef
  set start := batch_size * seed % N with hstart
  have hg : 0 < g := Nat.gcd_pos_of_pos_right _ hN
  have hdvd : g ∣ start := by
    rw [hstart]
    exact (Nat.dvd_mod_iff (Nat.gcd_dvd_right batch_size N)).mpr
      (Dvd.dvd.mul_right (Nat.gcd_dvd_left batch_size N) seed)
  have hlt : start < N := Nat.mod_lt _ hN
  have hle : g ≤ N - start :=
    Nat.le_of_dvd (by omega) (Nat.dvd_sub' (Nat.gcd_dvd_right batch_size N) hdvd)
  have hfit : start + batch_size ≤ 2 * N := by omega
  simp only [gdbIndices, List.length_take, List.length_drop, List.length_append,
    hlen, Nat.add_sub_cancel_left, ← hNdef, ← hstart]
  omega

/-- Witness for gdb_batch_length: N = 3, B = 4 = 3 + gcd(4, 3), step 2. -/
theorem gdb_batch_length_witness :
    (gdbIndices (fun _ l => l) 0 [0, 1, 2] 4 2).length = 4 :=
  gdb_batch_length (fun _ l => l) 0 [0, 1, 2] 4 2 (by decide)
    (fun _ => rfl) (by decide)

/-! ### Generator network: Generator.build_model (model.py lines 130-140)

Source:
    noise = Input(shape=input_shape, batch_size=self.batch_size)
    label = Input(shape=(1,), batch_size=self.batch_size, dtype='float32')
    label_embedding = Flatten()(Embedding(self.num_classes, 1)(label))
    input = tf.concat(axis = 1, values = [noise,label])
    x = Dense(dim, activation='relu')(input)
    x = Dense(dim * 2, activation='relu')(x)
    x = Dense(dim * 4, activation='relu')(x)
    x = Dense(data_dim)(x)

Per-sample forward pass over exact (integer) arithmetic; a Dense layer is
the usual rows-of-weights affine map, Embedding(num_classes, 1) a length-1
lookup per label. Note line 139 concatenates the RAW label input with the
noise; label_embedding is computed on line 138 and never used. -/

/-- Rectified linear unit. -/
def relu (x : ℤ) : ℤ := max x 0

/-- One Dense unit: weighted sum of the inputs plus bias. -/
def neuron (w : List ℤ) (b : ℤ) (x : List ℤ) : ℤ :=
  (List.zipWith (· * ·) w x).sum + b

/-- A Dense layer given its rows of weights and its biases (no activation). -/
def dense (W : List (List ℤ)) (b : List ℤ) (x : List ℤ) : List ℤ :=
  List.zipWith (fun wr bi => neuron wr bi x) W b

/-- A Dense layer with relu activation. -/
def denseRelu (W : List (List ℤ)) (b : List ℤ) (x : List ℤ) : List ℤ :=
  (dense W b x).map relu

/-- The generator's learned parameters: the Embedding(num_classes, 1)
lookup table and the weights/biases of the four Dense layers. -/
structure GenParams where
  emb : ℕ → ℤ
  W1 : List (List ℤ)
  b1 : List ℤ
  W2 : List (List ℤ)
  b2 : List ℤ
  W3 : List (List ℤ)
  b3 : List ℤ
  W4 : List (List ℤ)
  b4 : List ℤ

/-- The generator's layers have the widths Generator.build_model
configures: dim, dim * 2, dim * 4, and finally data_dim. -/
def GenParams.shaped (p : GenParams) (dim data_dim : ℕ) : Prop :=
  p.W1.length = dim ∧ p.b1.length = dim ∧
  p.W2.length = dim * 2 ∧ p.b2.length = dim * 2 ∧
  p.W3.length = dim * 4 ∧ p.b3.length = dim * 4 ∧
  p.W4.length = data_dim ∧ p.b4.length = data_dim

/-- Forward pass of the generator exactly as built by
Generator.build_model: the embedded label is computed (line 138) but the
concatenated input is noise ++ [raw label] (line 139). -/
def generatorForward (p : GenParams) (noise : List ℤ) (label : ℕ) : List ℤ :=
  let label_embedding := [p.emb label]
  let input := noise ++ [(label : ℤ)]
  let x1 := denseRelu p.W1 p.b1 input
  let x2 := denseRelu p.W2 p.b2 x1
  let x3 := denseRelu p.W3 p.b3 x2
  dense p.W4 p.b4 x3

/-- Refinement model following the spec's words for C2: the flattened
embedded label — not the raw label — is concatenated with the noise before
the same stack of layers. -/
def generatorForwardSpec (p : GenParams) (noise : List ℤ) (label : ℕ) : List ℤ :=
  let label_embedding := [p.emb label]
  let input := noise ++ label_embedding
  let x1 := denseRelu p.W1 p.b1 input
  let x2 := denseRelu p.W2 p.b2 x1
  let x3 := denseRelu p.W3 p.b3 x2
  dense p.W4 p.b4 x3

/-- Concrete generator parameters separating the code from the spec
wording: the embedding table maps every class to 1, and the layers pass
the first coordinate through (dim = 1, data_dim = 1). -/
def genParamsCx : GenParams :=
  { emb := fun _ => 1
    W1 := [[1]], b1 := [0]
    W2 := [[1], [1]], b2 := [0, 0]
    W3 := [[1], [1], [1], [1]], b3 := [0, 0, 0, 0]
    W4 := [[1, 0, 0, 0]], b4 := [0] }

/-- C2 counterexample: with genParamsCx, empty noise and label 0, the
network built by the source returns [0] (it consumed the raw label 0)
while the spec's architecture returns [1] (it would consume the embedded
label 1) — the generator does not concatenate the embedded label. -/
theorem generator_embedded_label_counterexample :
    generatorForward genParamsCx [] 0 ≠ generatorForwardSpec genParamsCx [] 0 := by
  decide

/-- C2 amended: the generator embeds the label into a learned scalar and
flattens it, but then concatenates the RAW label — not the embedding —
with the noise before the three relu layers and the final linear layer;
consequently its output never depends on the embedding table; and with the
configured widths (dim, dim * 2, dim * 4, data_dim) the output has length
data_dim. -/
theorem generator_concats_raw_label (p : GenParams) (noise : List ℤ) (label : ℕ) :
    generatorForward p noise label =
      dense p.W4 p.b4
        (denseRelu p.W3 p.b3
          (denseRelu p.W2 p.b2
            (denseRelu p.W1 p.b1 (noise ++ [(label : ℤ)]))))
    ∧ (∀ e' : ℕ → ℤ,
        generatorForward { p with emb := e' } noise label =
          generatorForward p noise label)
    ∧ (∀ dim data_dim : ℕ, p.shaped dim data_dim →
        (generatorForward p noise label).length = data_dim) := by
  refine ⟨rfl, fun _ => rfl, fun dim data_dim hs => ?_⟩
  obtain ⟨h1, h2, h3, h4, h5, h6, h7, h8⟩ := hs
  simp [generatorForward, denseRelu, dense, List.length_zipWith, h1, h2, h3, h4,
    h5, h6, h7, h8]

/-- Witness for generator_concats_raw_label at genParamsCx, which is
shaped with dim = 1 and data_dim = 1. -/
theorem generator_concats_raw_label_witness :
    (generatorForward genParamsCx [] 0).length = 1 :=
  (generator_concats_raw_label genParamsCx [] 0).2.2 1 1
    ⟨rfl, rfl, rfl, rfl, rfl, rfl, rfl, rfl⟩

/-! ### Trainable-flag handling: CGAN.__init__ (model.py lines 12-44) and
the training step (lines 68-96)

__init__ mutates discriminator.trainable and compiles models in this
order (lines 23, 25, 35, 44):
    self.discriminator.trainable = True
    self.discriminator.compile(...)
    self.discriminator.trainable = False
    self.combined.compile(...)
Keras captures a model's set of trainable weights when the model is
compiled; train_on_batch then updates exactly the weights that were
trainable at compile time. So the discriminator's own compiled train step
updates discriminator weights (flag True at its compile), while the
combined model's compiled train step treats the discriminator as frozen
(flag False at its compile) and updates only generator weights. The
gradient-step computations themselves are opaque here and appear as
arbitrary update functions. -/

/-- The operations of CGAN.__init__ that touch the trainable flag or
compile a model, in source order. -/
inductive InitOp where
  | setDiscTrainable : Bool → InitOp
  | compileDiscriminator : InitOp
  | compileCombined : InitOp

/-- The flag value and the per-model compile-time snapshots of it. -/
structure CompileSnapshots where
  discTrainableFlag : Bool
  discModelSnapshot : Option Bool
  combinedModelSnapshot : Option Bool

/-- Effect of one __init__ operation on the flag and the snapshots:
compiling a model captures the current flag value. -/
def applyInitOp (s : CompileSnapshots) : InitOp → CompileSnapshots
  | .setDiscTrainable b => { s with discTrainableFlag := b }
  | .compileDiscriminator => { s with discModelSnapshot := some s.discTrainableFlag }
  | .compileCombined => { s with combinedModelSnapshot := some s.discTrainableFlag }

/-- The operations of CGAN.__init__ in source order (lines 23, 25, 35, 44). -/
def cganInitOps : List InitOp :=
  [.setDiscTrainable true, .compileDiscriminator,
   .setDiscTrainable false, .compileCombined]

/-- Snapshots after CGAN.__init__ (a fresh Keras model starts trainable). -/
def initSnapshots : CompileSnapshots :=
  cganInitOps.foldl applyInitOp ⟨true, none, none⟩

/-- Whether the discriminator's weights belong to the trainable set of the
compiled discriminator model. -/
def discTrainsDisc : Bool := (initSnapshots.discModelSnapshot).getD true

/-- Whether the discriminator's weights belong to the trainable set of the
compiled combined model. -/
def combinedTrainsDisc : Bool := (initSnapshots.combinedModelSnapshot).getD true

/-- The mutable weights of the system: generator's and discriminator's
(the combined model aliases both, owning neither). -/
structure GanWeights where
  gen : List ℤ
  disc : List ℤ

/-- discriminator.train_on_batch: applies a gradient step to the
discriminator weights exactly when they were trainable at the
discriminator's compile. -/
def trainOnBatchDisc (upd : List ℤ → List ℤ) (w : GanWeights) : GanWeights :=
  if discTrainsDisc then { w with disc := upd w.disc } else w

/-- combined.train_on_batch: applies a gradient step to the generator
weights, and to the discriminator weights exactly when they were trainable
at the combined model's compile. -/
def trainOnBatchCombined (updG updD : List ℤ → List ℤ) (w : GanWeights) : GanWeights :=
  { gen := updG w.gen,
    disc := if combinedTrainsDisc then updD w.disc else w.disc }

/-- One step of CGAN.train (lines 68-96): discriminator trained on the
real batch and on the fake batch, then the combined model trained once
(the in-loop assignments to discriminator.trainable do not recompile
either model, so the compile-time snapshots govern every update). -/
def cganTrainStep (updD1 updD2 updG updDc : List ℤ → List ℤ)
    (w : GanWeights) : GanWeights :=
  trainOnBatchCombined updG updDc (trainOnBatchDisc updD2 (trainOnBatchDisc updD1 w))

/-- C7: frozen-weights invariant. The combined model was compiled after
discriminator.trainable was set to False (the __init__ snapshot is
some false), so in every training step the generator-update phase leaves
every discriminator weight unchanged, whatever gradient steps the
framework computes: the step's final discriminator weights are exactly
those produced by the two discriminator-phase updates, and only the
generator's weights change in the combined-model phase. -/
theorem combined_update_preserves_disc (updD1 updD2 updG updDc : List ℤ → List ℤ)
    (w : GanWeights) :
    initSnapshots.combinedModelSnapshot = some false
    ∧ (trainOnBatchCombined updG updDc w).disc = w.disc
    ∧ (cganTrainStep updD1 updD2 updG updDc w).disc =
        (trainOnBatchDisc updD2 (trainOnBatchDisc updD1 w)).disc := by
  refine ⟨rfl, ?_, ?_⟩ <;>
    simp [cganTrainStep, trainOnBatchCombined, combinedTrainsDisc, initSnapshots,
      cganInitOps, applyInitOp]

/-! ### Batch splitting in the training step (model.py lines 73-75)

Source:
    label = batch_y[:, label_dim]
    batch_x = batch_y[:, :-1]
A batch is a list of rows; column label_dim of each row is the label, and
the features are every column but the LAST one, whatever label_dim is. -/

/-- The label vector extracted by CGAN.train: column label_dim of each row. -/
def batchLabels (batch_y : List (List ℤ)) (label_dim : ℕ) : List ℤ :=
  batch_y.map (fun r => r.getD label_dim 0)

/-- The feature matrix extracted by CGAN.train: every column but the last. -/
def batchFeatures (batch_y : List (List ℤ)) : List (List ℤ) :=
  batch_y.map List.dropLast

/-- C8: the training step splits each sampled batch row-aligned — labels
are column label_dim, features drop exactly the last column, so every
feature row has width one less than the full row; and whenever the label
column is not the final column, the feature row still contains the label
value at position label_dim (the label column is fed to the discriminator
among the features). -/
theorem train_split_spec (batch_y : List (List ℤ)) (label_dim : ℕ) :
    batchLabels batch_y label_dim = batch_y.map (fun r => r.getD label_dim 0)
    ∧ batchFeatures batch_y = batch_y.map List.dropLast
    ∧ (∀ r ∈ batch_y, (List.dropLast r).length = r.length - 1)
    ∧ (∀ r ∈ batch_y, label_dim + 1 < r.length →
        (List.dropLast r).getD label_dim 0 = r.getD label_dim 0) := by
  refine ⟨rfl, rfl, fun r _ => List.length_dropLast r, fun r _ h => ?_⟩
  have hd : label_dim < r.dropLast.length := by
    rw [List.length_dropLast]; omega
  have hr : label_dim < r.length := by omega
  rw [List.getD_eq_getElem?_getD, List.getD_eq_getElem?_getD,
    List.getElem?_eq_getElem hd, List.getElem?_eq_getElem hr,
    Option.getD_some, Option.getD_some, List.getElem_dropLast]

/-- Witness for train_split_spec: a single three-column row with the label
in column 0 (not the final column) — the feature row [7, 8] keeps the
label value 7 at position 0 and has width 2 = 3 - 1. -/
theorem train_split_spec_witness :
    (List.dropLast ([7, 8, 9] : List ℤ)).getD 0 0 = ([7, 8, 9] : List ℤ).getD 0 0 :=
  (train_split_spec [[7, 8, 9]] 0).2.2.2 [7, 8, 9] (by simp) (by decide)

/-! ### Persistence: CGAN.save (model.py lines 111-116) and CGAN.load
(lines 118-123)

Source (save):
    assert os.path.isdir(path) == True, "Please provide a valid path. ..."
    model_path = os.path.join(path, name)
    self.generator.save_weights(model_path)
Source (load):
    assert os.path.isdir(path) == True, "Please provide a valid path. ..."
    self.generator = Generator(self.batch_size)
    self.generator = self.generator.load_weights(path)

The filesystem is abstracted to the predicate isDir; the effect of save is
the list of (path, artifact) writes it performs, and a failed assertion is
an error result carrying no writes (the assert is the first statement, so
nothing is written and nothing mutated on that path). -/

/-- What a weight file can contain. -/
inductive SavedArtifact where
  | generatorWeights : SavedArtifact
  | discriminatorWeights : SavedArtifact
  | combinedState : SavedArtifact
deriving DecidableEq

/-- os.path.join for a directory and a relative name. -/
def osPathJoin (a b : String) : String :=
  if a.endsWith "/" then a ++ b else a ++ "/" ++ b

/-- The assertion message of CGAN.save and CGAN.load. -/
def invalidPathMsg : String :=
  "Please provide a valid path. Path must be a directory."

/-- CGAN.save: assert the path is a directory, then write the generator's
weights — and nothing else — to os.path.join(path, name). -/
def cganSave (isDir : String → Bool) (path name : String) :
    Except String (List (String × SavedArtifact)) :=
  if isDir path then
    Except.ok [(osPathJoin path name, SavedArtifact.generatorWeights)]
  else
    Except.error invalidPathMsg

/-- C9: save fails with the assertion message whenever the path is not an
existing directory, and the failure happens before any write (the error
result carries no write); when the path is a directory, save performs
exactly one write — the generator's weights — so no discriminator or
combined-model state is ever persisted. -/
theorem cgan_save_spec (isDir : String → Bool) (path name : String) :
    (isDir path = false → cganSave isDir path name = Except.error invalidPathMsg)
    ∧ (isDir path = true →
        cganSave isDir path name =
          Except.ok [(osPathJoin path name, SavedArtifact.generatorWeights)])
    ∧ (∀ l, cganSave isDir path name = Except.ok l →
        ∀ w ∈ l, w.2 = SavedArtifact.generatorWeights) := by
  by_cases h : isDir path
  · refine ⟨fun hf => by simp [h] at hf, fun _ => by simp [cganSave, h], ?_⟩
    intro l hl w hw
    simp [cganSave, h] at hl
    subst hl
    simp at hw
    simp [hw]
  · refine ⟨fun _ => by simp [cganSave, h], fun ht => by simp [h] at ht, ?_⟩
    intro l hl
    simp [cganSave, h] at hl

/-- Witness for cgan_save_spec on both branches: a filesystem in which
"out" is a directory and "missing" is not. -/
theorem cgan_save_spec_witness :
    cganSave (fun s => s = "out") "missing" "gen.h5" = Except.error invalidPathMsg
    ∧ cganSave (fun s => s = "out") "out" "gen.h5" =
        Except.ok [(osPathJoin "out" "gen.h5", SavedArtifact.generatorWeights)] :=
  ⟨(cgan_save_spec (fun s => s = "out") "missing" "gen.h5").1 (by decide),
   (cgan_save_spec (fun s => s = "out") "out" "gen.h5").2.1 (by decide)⟩

/-- A constructed Generator wrapper object (Generator.__init__, lines
126-128: def __init__(self, batch_size, num_classes)). -/
structure GeneratorObj where
  batch_size : ℕ
  num_classes : ℕ
deriving DecidableEq

/-- Calling the Generator constructor with a Python argument list:
Generator.__init__ requires both batch_size and num_classes, so any other
arity raises a TypeError. -/
def generatorNew (args : List ℕ) : Except String GeneratorObj :=
  match args with
  | [b, n] => Except.ok ⟨b, n⟩
  | _ => Except.error
      "TypeError: __init__() missing 1 required positional argument: num_classes"

/-- CGAN.load: assert the path is a directory, then evaluate
Generator(self.batch_size) — one argument only (line 121) — and only on
success would load_weights run. -/
def cganLoad (isDir : String → Bool) (batch_size : ℕ) (path : String) :
    Except String GeneratorObj :=
  if isDir path then
    match generatorNew [batch_size] with
    | Except.ok g => Except.ok g
    | Except.error e => Except.error e
  else
    Except.error invalidPathMsg

/-- C4: load never returns a rebuilt generator, even under the
directory-exists precondition — the source calls Generator with only
batch_size, omitting the required num_classes argument, so the constructor
call raises a TypeError before any weights are loaded. Evaluated at a
concrete existing directory and batch_size 32. -/
theorem cgan_load_raises_type_error :
    cganLoad (fun _ => true) 32 "models" =
      Except.error
        "TypeError: __init__() missing 1 required positional argument: num_classes" := rfl

/-! ### Checkpointing in the training loop (model.py lines 98-103)

Source:
    if epoch % sample_interval == 0:
        model_checkpoint_base_name = data_dir + cache_prefix + '_{}_model_weights_step_{}.h5'
        self.generator.save_weights(model_checkpoint_base_name.format('generator', epoch))
        self.discriminator.save_weights(model_checkpoint_base_name.format('discriminator', epoch))
(`cache_prefix` from the source is written cachePref below.) -/

/-- The checkpoint file name: data_dir + cache_prefix with the role and
step substituted into the format string. -/
def checkpointName (data_dir cachePref role : String) (step : ℕ) : String :=
  data_dir ++ cachePref ++ "_" ++ role ++ "_model_weights_step_" ++ toString step ++ ".h5"

/-- The checkpoint files written at a step of CGAN.train: generator then
discriminator weights when step mod sample_interval = 0, none otherwise. -/
def checkpointWrites (data_dir cachePref : String) (sample_interval step : ℕ) : List String :=
  if step % sample_interval = 0 then
    [checkpointName data_dir cachePref "generator" step,
     checkpointName data_dir cachePref "discriminator" step]
  else []

/-- C10: with a positive checkpoint interval, checkpoint files are written
at a step exactly when step mod interval = 0, and then the two files are
precisely data_dir ++ prefixString ++ "_generator_model_weights_step_" ++
step ++ ".h5" and the same with "discriminator" — the exact naming scheme
of the spec; at every other step nothing is written. -/
theorem checkpoint_naming (data_dir cachePref : String) (sample_interval step : ℕ)
    (hpos : 0 < sample_interval) :
    (step % sample_interval = 0 →
      checkpointWrites data_dir cachePref sample_interval step =
        [data_dir ++ cachePref ++ "_" ++ "generator" ++ "_model_weights_step_" ++
           toString step ++ ".h5",
         data_dir ++ cachePref ++ "_" ++ "discriminator" ++ "_model_weights_step_" ++
           toString step ++ ".h5"])
    ∧ (step % sample_interval ≠ 0 →
        checkpointWrites data_dir cachePref sample_interval step = []) := by
  constructor
  · intro h
    simp [checkpointWrites, h, checkpointName]
  · intro h
    simp [checkpointWrites, h]

/-- Witness for checkpoint_naming: interval 2 at steps 4 (written) and 3
(skipped). -/
theorem checkpoint_naming_witness :
    checkpointWrites "out/" "cgan" 2 4 =
      ["out/" ++ "cgan" ++ "_" ++ "generator" ++ "_model_weights_step_" ++
         toString 4 ++ ".h5",
       "out/" ++ "cgan" ++ "_" ++ "discriminator" ++ "_model_weights_step_" ++
         toString 4 ++ ".h5"]
    ∧ checkpointWrites "out/" "cgan" 2 3 = [] :=
  ⟨(checkpoint_naming "out/" "cgan" 2 4 (by decide)).1 (by decide),
   (checkpoint_naming "out/" "cgan" 2 3 (by decide)).2 (by decide)⟩

end CGANModel
